import Mathlib

/-!
Verification of the food composition and validation system (`src/app.py`).

The development shallowly embeds the scoring and resolution pipeline:
Python floats are modelled as rationals extended with the three non-finite
IEEE values, JSON payload values as an inductive type, the Flask handlers
`manual` (POST branch) and `scan` (POST branch) as pure functions over an
explicit store state, with the fitted model injected as a parameter.
-/

set_option autoImplicit false

deriving instance DecidableEq for Except

namespace FoodApp

/-- Python `str.strip()` on a character list: drop whitespace from both ends. -/
def stripChars (l : List Char) : List Char :=
  ((l.dropWhile Char.isWhitespace).reverse.dropWhile Char.isWhitespace).reverse

/-- Python `str.strip()` (default whitespace). -/
def pyStrip (s : String) : String :=
  ⟨stripChars s.toList⟩

/-- Python `str.lower()` (the barcodes and literals involved are ASCII). -/
def pyLower (s : String) : String :=
  ⟨s.toList.map Char.toLower⟩

/-- Python float values as far as the pipeline observes them: a finite value
(the exact rational a double denotes; 40 and 70 are exactly representable),
positive and negative infinity, and NaN. -/
inductive PyFloat where
  | finite (q : ℚ)
  | inf
  | negInf
  | nan
deriving DecidableEq

/-- IEEE-754 `<` as Python evaluates it: any comparison with NaN is false,
negative infinity is below every non-NaN value, positive infinity above. -/
def pyLt : PyFloat → PyFloat → Bool
  | .nan, _ => false
  | _, .nan => false
  | .finite a, .finite b => decide (a < b)
  | .finite _, .inf => true
  | .finite _, .negInf => false
  | .inf, _ => false
  | .negInf, .negInf => false
  | .negInf, _ => true

/-- IEEE-754 `<=` as Python evaluates it (false whenever NaN is involved). -/
def pyLe : PyFloat → PyFloat → Bool
  | .nan, _ => false
  | _, .nan => false
  | .finite a, .finite b => decide (a ≤ b)
  | .finite _, .inf => true
  | .finite _, .negInf => false
  | .inf, .inf => true
  | .inf, _ => false
  | .negInf, _ => true

/-- `get_health_feedback` (app.py lines 33-39): `if score < 40` poor,
`elif 40 <= score < 70` moderate, `else` excellent.  Python chains
`40 <= score < 70` as `40 <= score and score < 70`. -/
def get_health_feedback (score : PyFloat) : String :=
  if pyLt score (.finite 40) then "Poor nutritional quality"
  else if pyLe (.finite 40) score && pyLt score (.finite 70) then
    "Moderate nutritional quality"
  else "Excellent nutritional quality"

/-- A JSON value as `request.get_json()` hands it to the handler: null,
boolean, number (JSON decimal literals are exact rationals), string, array
or object.  Arrays and objects are opaque to the pipeline — `float()` rejects
both — so they carry no payload here. -/
inductive JVal where
  | null
  | bool (b : Bool)
  | num (q : ℚ)
  | str (s : String)
  | arr
  | obj
deriving DecidableEq

/-- Numeric value of a list of decimal digits, most significant first. -/
def digitsVal (l : List Char) : ℕ :=
  l.foldl (fun a c => a * 10 + (c.toNat - 48)) 0

/-- Mantissa of a Python float literal: decimal digits with at most one
decimal point and at least one digit overall ("12", "12.", "12.5", ".5"). -/
def parseMantissa (l : List Char) : Option ℚ :=
  match l.splitOn '.' with
  | [i] =>
      if i ≠ [] ∧ i.all Char.isDigit then some (digitsVal i : ℚ) else none
  | [i, f] =>
      if (i ++ f) ≠ [] ∧ (i ++ f).all Char.isDigit then
        some ((digitsVal i : ℚ) + (digitsVal f : ℚ) / (10 : ℚ) ^ f.length)
      else none
  | _ => none

/-- Exponent part of a float literal: an optional sign and nonempty digits. -/
def parseExpPart (l : List Char) : Option ℤ :=
  match l with
  | '+' :: r =>
      if r ≠ [] ∧ r.all Char.isDigit then some (digitsVal r : ℤ) else none
  | '-' :: r =>
      if r ≠ [] ∧ r.all Char.isDigit then some (-(digitsVal r : ℤ)) else none
  | r => if r ≠ [] ∧ r.all Char.isDigit then some (digitsVal r : ℤ) else none

/-- Numeric float literal after sign removal and lowercasing: a mantissa with
an optional `e`-exponent. -/
def parseNumeric (l : List Char) : Option ℚ :=
  match l.splitOn 'e' with
  | [m] => parseMantissa m
  | [m, e] => do
      let q ← parseMantissa m
      let ex ← parseExpPart e
      pure (q * (10 : ℚ) ^ ex)
  | _ => none

/-- Python `float(s)` on a string: surrounding whitespace is ignored, then an
optional sign followed by either a decimal literal or the case-insensitive
specials `inf`/`infinity`/`nan`.  Anything else raises
`ValueError: could not convert string to float: '<s>'` (the message quotes
the offending value, not any field name). -/
def pyFloatOfString (s : String) : Except String PyFloat :=
  let t := pyLower (pyStrip s)
  let signBody : Bool × List Char :=
    match t.toList with
    | '+' :: r => (false, r)
    | '-' :: r => (true, r)
    | r => (false, r)
  let neg := signBody.1
  let body := signBody.2
  if body = "inf".toList ∨ body = "infinity".toList then
    .ok (if neg then .negInf else .inf)
  else if body = "nan".toList then .ok .nan
  else
    match parseNumeric body with
    | some q => .ok (.finite (if neg then -q else q))
    | none => .error ("could not convert string to float: \x27" ++ s ++ "\x27")

/-- Python `float(v)` on a JSON value: numbers pass through, booleans coerce
to 1.0/0.0, strings are parsed, and null/arrays/objects raise `TypeError`
(whose message names the Python type, not any field). -/
def pyFloat : JVal → Except String PyFloat
  | .null => .error "float() argument must be a string or a real number, not \x27NoneType\x27"
  | .bool b => .ok (.finite (if b then 1 else 0))
  | .num q => .ok (.finite q)
  | .str s => pyFloatOfString s
  | .arr => .error "float() argument must be a string or a real number, not \x27list\x27"
  | .obj => .error "float() argument must be a string or a real number, not \x27dict\x27"

/-- The parsed JSON body: a finite string-keyed mapping (first binding wins,
as dict keys are unique). -/
abbrev Payload := List (String × JVal)

/-- app.py line 62: the seven required nutrient fields, in fixed order. -/
def required_fields : List String :=
  ["calories", "sugar", "fat", "saturated_fat", "proteins", "fibers", "sodium"]

/-- `field not in data or data[field] is None` (app.py line 63). -/
def fieldMissing (data : Payload) (f : String) : Bool :=
  match data.lookup f with
  | none => true
  | some .null => true
  | some _ => false

/-- app.py line 63: the list comprehension collecting every required field
that is absent or explicitly null, in `required_fields` order. -/
def missing_fields (data : Payload) : List String :=
  required_fields.filter (fun f => fieldMissing data f)

/-- The ordered feature vector (app.py lines 70-78): the seven coerced
nutrient values, position by position. -/
structure Features where
  calories : PyFloat
  sugar : PyFloat
  fat : PyFloat
  saturated_fat : PyFloat
  proteins : PyFloat
  fibers : PyFloat
  sodium : PyFloat
deriving DecidableEq

/-- The 7-element list handed to `model.predict`, in the fixed field order. -/
def Features.toVec (f : Features) : List PyFloat :=
  [f.calories, f.sugar, f.fat, f.saturated_fat, f.proteins, f.fibers, f.sodium]

/-- app.py lines 69-78: coerce the seven fields with `float(...)` in the
fixed order; the first conversion failure aborts the whole list (the `try`
wraps the entire list display), so no partial vector survives. -/
def coerceFeatures (data : Payload) : Except String Features := do
  let getv := fun (f : String) => (data.lookup f).getD .null
  let c ← pyFloat (getv "calories")
  let su ← pyFloat (getv "sugar")
  let fa ← pyFloat (getv "fat")
  let sf ← pyFloat (getv "saturated_fat")
  let pr ← pyFloat (getv "proteins")
  let fb ← pyFloat (getv "fibers")
  let so ← pyFloat (getv "sodium")
  pure ⟨c, su, fa, sf, pr, fb, so⟩

/-- The fitted scoring capability (`model.predict([features])[0]`), injected
as a dependency: a function from the 7-element vector to a score, which may
raise (surfaced as `.error` with the exception text). -/
abbrev Model := List PyFloat → Except String PyFloat

/-- One row of the `Product` table (app.py lines 20-30 and 91-101): the name
defaulted by `data.get` (kept as the raw JSON value), the seven coerced
nutrients, and the resulting health score. -/
structure ProductRow where
  name : JVal
  calories : PyFloat
  sugar : PyFloat
  fat : PyFloat
  saturated_fat : PyFloat
  proteins : PyFloat
  fibers : PyFloat
  sodium : PyFloat
  health_score : PyFloat
deriving DecidableEq

/-- The persisted store: the committed rows and the number of write attempts
made (`db.session.add` + `commit`, whether or not the commit succeeded). -/
structure Store where
  rows : List ProductRow
  attempts : ℕ
deriving DecidableEq

/-- A manual-path POST request as the handler observes it: not JSON at all
(`request.is_json` false), JSON content type with an unparseable body
(`request.get_json()` raises), or a parsed body (`None` for a JSON null). -/
inductive ReqBody where
  | notJson
  | malformed
  | json (data : Option Payload)
deriving DecidableEq

/-- Responses of the manual POST handler, one constructor per `return`:
415 not-JSON, 400 no-data, 400 missing fields (the message joins the list),
400 invalid number, 500 prediction failed, 200 score/feedback, and the
outer catch-all 500 whose body is the fixed generic string
"An unexpected server error occurred". -/
inductive ManualResp where
  | notJson
  | noData
  | missingFields (fields : List String)
  | invalidNumber (msg : String)
  | predictionFailed (msg : String)
  | success (score : PyFloat) (feedback : String)
  | serverError
deriving DecidableEq

/-- The `Product(...)` row constructed at app.py lines 91-101:
`data.get("name", "Unknown Product")` and the coerced feature values. -/
def saveRow (data : Payload) (feats : Features) (prediction : PyFloat) : ProductRow :=
  { name := (data.lookup "name").getD (.str "Unknown Product")
    calories := feats.calories
    sugar := feats.sugar
    fat := feats.fat
    saturated_fat := feats.saturated_fat
    proteins := feats.proteins
    fibers := feats.fibers
    sodium := feats.sodium
    health_score := prediction }

/-- The body of the manual POST handler inside its outermost `try` (app.py
lines 51-113).  An `.error` result is an exception escaping the body: the
only reachable one is `request.get_json()` raising on a malformed body,
since field validation, coercion, prediction and the store write each handle
their own failures in-band. -/
def manualBody (model : Model) (dbOk : Bool) (store : Store) (body : ReqBody) :
    Except String (ManualResp × Store) :=
  match body with
  | .notJson => .ok (.notJson, store)
  | .malformed => .error "400 Bad Request: Failed to decode JSON object"
  | .json none => .ok (.noData, store)
  | .json (some data) =>
    let missing := missing_fields data
    if missing ≠ [] then .ok (.missingFields missing, store)
    else
      match coerceFeatures data with
      | .error e => .ok (.invalidNumber ("Invalid number format: " ++ e), store)
      | .ok feats =>
        match model feats.toVec with
        | .error e => .ok (.predictionFailed ("Prediction failed: " ++ e), store)
        | .ok prediction =>
          let row := saveRow data feats prediction
          let store2 : Store :=
            if dbOk then { rows := store.rows ++ [row], attempts := store.attempts + 1 }
            else { rows := store.rows, attempts := store.attempts + 1 }
          .ok (.success prediction (get_health_feedback prediction), store2)

/-- The manual POST handler (app.py lines 45-117): the body wrapped in the
outermost `try`/`except Exception`, which converts any escaping exception
into the generic 500 response. -/
def manual (model : Model) (dbOk : Bool) (store : Store) (body : ReqBody) :
    ManualResp × Store :=
  match manualBody model dbOk store body with
  | .ok r => r
  | .error _ => (.serverError, store)

/-- A `barcode` cell of the catalog as `pd.read_csv` loaded it: an inferred
integer, or a plain string. -/
inductive BVal where
  | intB (n : ℤ)
  | strB (s : String)
deriving DecidableEq

/-- `astype(str)` on one barcode cell (app.py line 131). -/
def astypeStr : BVal → String
  | .intB n => toString n
  | .strB s => s

/-- One row of `products.csv`: barcode, display name, and the seven nutrient
columns. -/
structure CatRow where
  barcode : BVal
  product_name : String
  calories : PyFloat
  sugar : PyFloat
  fat : PyFloat
  saturated_fat : PyFloat
  proteins : PyFloat
  fibers : PyFloat
  sodium : PyFloat
deriving DecidableEq

/-- `row[["calories", ..., "sodium"]].values[0]` (app.py line 138): the seven
nutrient cells in fixed column order. -/
def CatRow.featuresVec (r : CatRow) : List PyFloat :=
  [r.calories, r.sugar, r.fat, r.saturated_fat, r.proteins, r.fibers, r.sodium]

/-- The in-memory catalog `products_df`, loaded once at process start. -/
abbrev Catalog := List CatRow

/-- app.py line 131: `products_df["barcode"] = products_df["barcode"].astype(str)` —
the barcode column of the global dataframe is overwritten with its string
form on every scan POST. -/
def stringifyBarcodes (cat : Catalog) : Catalog :=
  cat.map fun r => { r with barcode := .strB (astypeStr r.barcode) }

/-- Barcode normalization (app.py line 134): `.strip().lower()`. -/
def normBarcode (s : String) : String :=
  pyLower (pyStrip s)

/-- app.py line 134: the first catalog row whose stripped, lowercased barcode
equals the stripped, lowercased query (pandas keeps row order, `[0]`/`iloc[0]`
take the first match). -/
def resolveRow (cat : Catalog) (b : String) : Option CatRow :=
  cat.find? fun r => normBarcode (astypeStr r.barcode) == normBarcode b

/-- Outcome of a scan POST: a found product (name, raw prediction, feedback —
rendered into the display message with the score rounded to 2 places), or the
"Product not found in DATABASE." error state. -/
inductive ScanResp where
  | found (product_name : String) (score : PyFloat) (feedback : String)
  | notFound
deriving DecidableEq

/-- The scan POST handler (app.py lines 121-145).  It has no `try`/`except`:
an exception — `barcode` absent from the form (`None.strip()`), or the model
raising — propagates out of the handler as `.error`.  The barcode-column
mutation of line 131 happens first in every case, so the updated catalog is
returned alongside; the handler never touches the persisted store. -/
def scan (model : Model) (store : Store) (cat : Catalog) (barcode : Option String) :
    Except String ScanResp × Catalog × Store :=
  let cat2 := stringifyBarcodes cat
  match barcode with
  | none =>
      (.error "AttributeError: \x27NoneType\x27 object has no attribute \x27strip\x27",
        cat2, store)
  | some b =>
    match resolveRow cat2 b with
    | some row =>
      match model row.featuresVec with
      | .error e => (.error e, cat2, store)
      | .ok prediction =>
          (.ok (.found row.product_name prediction (get_health_feedback prediction)),
            cat2, store)
    | none => (.ok .notFound, cat2, store)

/-- Python `in` on strings: whether `needle` occurs contiguously in `hay`. -/
def pyContains (hay needle : String) : Bool :=
  (List.range (hay.toList.length + 1)).any fun i =>
    needle.toList.isPrefixOf (hay.toList.drop i)

/-- A stub fitted model returning the constant score 72.0. -/
def mdlConst : Model := fun _ => .ok (.finite 72)

/-- A stub fitted model that raises on every input. -/
def mdlThrow : Model := fun _ => .error "boom"

/-- An empty persisted store. -/
def store0 : Store := { rows := [], attempts := 0 }

/-- A complete, all-numeric manual payload (spec scenario A). -/
def demoPayload : Payload :=
  [("calories", .num 250), ("sugar", .num 5), ("fat", .num 10),
   ("saturated_fat", .num 2), ("proteins", .num 8), ("fibers", .num 3),
   ("sodium", .num 400)]

/-- The feature vector `demoPayload` coerces to. -/
def demoFeats : Features :=
  { calories := .finite 250, sugar := .finite 5, fat := .finite 10,
    saturated_fat := .finite 2, proteins := .finite 8, fibers := .finite 3,
    sodium := .finite 400 }

/-- A manual payload with `sugar` and `sodium` absent (spec scenario B). -/
def payloadMissingTwo : Payload :=
  [("calories", .num 250), ("fat", .num 10), ("saturated_fat", .num 2),
   ("proteins", .num 8), ("fibers", .num 3)]

/-- A manual payload whose `sugar` value fails float conversion. -/
def payloadBadSugar : Payload :=
  [("calories", .num 250), ("sugar", .str "abc"), ("fat", .num 10),
   ("saturated_fat", .num 2), ("proteins", .num 8), ("fibers", .num 3),
   ("sodium", .num 400)]

/-- A catalog row whose barcode is already a string. -/
def demoRow : CatRow :=
  { barcode := .strB "abc-123", product_name := "Choco", calories := .finite 250,
    sugar := .finite 5, fat := .finite 10, saturated_fat := .finite 2,
    proteins := .finite 8, fibers := .finite 3, sodium := .finite 400 }

/-- A one-row catalog whose barcode is already a string. -/
def demoCat : Catalog := [demoRow]

/-- A one-row catalog whose barcode column was inferred as integers. -/
def catInt : Catalog :=
  [{ barcode := .intB 123, product_name := "IntBar", calories := .finite 250,
     sugar := .finite 5, fat := .finite 10, saturated_fat := .finite 2,
     proteins := .finite 8, fibers := .finite 3, sodium := .finite 400 }]

/-- C1: for every finite score `q`, the classifier returns the poor band iff
`q < 40`, the moderate band iff `40 ≤ q < 70`, and the excellent band iff
`q ≥ 70`; the boundaries 40 and 70 land in the higher band. -/
theorem get_health_feedback_bands (q : ℚ) :
    (get_health_feedback (.finite q) = "Poor nutritional quality" ↔ q < 40) ∧
    (get_health_feedback (.finite q) = "Moderate nutritional quality" ↔
      40 ≤ q ∧ q < 70) ∧
    (get_health_feedback (.finite q) = "Excellent nutritional quality" ↔ 70 ≤ q) ∧
    get_health_feedback (.finite 40) = "Moderate nutritional quality" ∧
    get_health_feedback (.finite 70) = "Excellent nutritional quality" := by
  have hpm : ("Poor nutritional quality" = "Moderate nutritional quality") = False := by
    decide
  have hpe : ("Poor nutritional quality" = "Excellent nutritional quality") = False := by
    decide
  have hmp : ("Moderate nutritional quality" = "Poor nutritional quality") = False := by
    decide
  have hme : ("Moderate nutritional quality" = "Excellent nutritional quality") = False := by
    decide
  have hep : ("Excellent nutritional quality" = "Poor nutritional quality") = False := by
    decide
  have hem : ("Excellent nutritional quality" = "Moderate nutritional quality") = False := by
    decide
  refine ⟨?_, ?_, ?_, by decide, by decide⟩ <;>
    · simp only [get_health_feedback, pyLt, pyLe, Bool.and_eq_true, decide_eq_true_eq]
      split_ifs with h1 h2 <;>
        simp_all [hpm, hpe, hmp, hme, hep, hem] <;> push_neg at * <;> linarith

/-- C10: the classifier is total on non-finite inputs as well: negative
infinity falls in the poor band, and NaN and positive infinity — inputs for
which both threshold tests are false — fall through to the excellent band.
In the embedding `get_health_feedback` is a total Lean function, matching the
Python function, which has no raising operation. -/
theorem get_health_feedback_nonfinite :
    get_health_feedback .negInf = "Poor nutritional quality" ∧
    get_health_feedback .nan = "Excellent nutritional quality" ∧
    get_health_feedback .inf = "Excellent nutritional quality" := by
  decide

/-- C2: whenever at least one required nutrient field is absent or null, the
manual handler answers with the missing-fields error whose list is exactly
the required fields that are absent or explicitly null (all of them, in the
fixed field order), the store is untouched, and — since the right-hand side
mentions neither the model nor the store contents — no scoring is attempted. -/
theorem manual_missing_fields (model : Model) (dbOk : Bool) (store : Store)
    (data : Payload) (h : missing_fields data ≠ []) :
    manual model dbOk store (.json (some data)) =
      (.missingFields (missing_fields data), store) ∧
    ∀ f : String, f ∈ missing_fields data ↔
      f ∈ required_fields ∧
        (data.lookup f = none ∨ data.lookup f = some .null) := by
  constructor
  · simp [manual, manualBody, h]
  · intro f
    simp only [missing_fields, List.mem_filter]
    constructor
    · rintro ⟨hf, hm⟩
      refine ⟨hf, ?_⟩
      unfold fieldMissing at hm
      rcases hlk : data.lookup f with _ | v
      · exact Or.inl rfl
      · rw [hlk] at hm
        cases v <;> simp_all
    · rintro ⟨hf, hm | hm⟩ <;> simp [hf, fieldMissing, hm]

/-- Witness for C2 at spec scenario B: `sugar` and `sodium` absent, both
reported, nothing stored. -/
theorem manual_missing_fields_witness :
    manual mdlConst true store0 (.json (some payloadMissingTwo)) =
      (.missingFields (missing_fields payloadMissingTwo), store0) ∧
    missing_fields payloadMissingTwo = ["sugar", "sodium"] :=
  ⟨(manual_missing_fields mdlConst true store0 payloadMissingTwo (by decide)).1,
    by decide⟩

/-- C4: when scoring succeeds, a persistence failure is absorbed: the response
is identical to the one returned when the write commits, exactly one write
attempt is made either way (no retry), and on failure the stored rows are
unchanged. -/
theorem manual_record_failure_absorbed (model : Model) (store : Store)
    (data : Payload) (feats : Features) (p : PyFloat)
    (h1 : missing_fields data = []) (h2 : coerceFeatures data = .ok feats)
    (h3 : model feats.toVec = .ok p) :
    (manual model false store (.json (some data))).1 =
      (manual model true store (.json (some data))).1 ∧
    (manual model true store (.json (some data))).1 =
      .success p (get_health_feedback p) ∧
    (manual model false store (.json (some data))).2 =
      { rows := store.rows, attempts := store.attempts + 1 } ∧
    (manual model true store (.json (some data))).2 =
      { rows := store.rows ++ [saveRow data feats p], attempts := store.attempts + 1 } := by
  simp [manual, manualBody, h1, h2, h3]

/-- Witness for C4 at spec scenario A: the complete numeric payload scored 72
returns the same excellent response whether or not the write commits, with
one attempt each. -/
theorem manual_record_failure_absorbed_witness :
    (manual mdlConst false store0 (.json (some demoPayload))).1 =
      (manual mdlConst true store0 (.json (some demoPayload))).1 ∧
    (manual mdlConst true store0 (.json (some demoPayload))).1 =
      .success (.finite 72) (get_health_feedback (.finite 72)) ∧
    (manual mdlConst false store0 (.json (some demoPayload))).2 =
      { rows := store0.rows, attempts := store0.attempts + 1 } ∧
    (manual mdlConst true store0 (.json (some demoPayload))).2 =
      { rows := store0.rows ++ [saveRow demoPayload demoFeats (.finite 72)],
        attempts := store0.attempts + 1 } :=
  manual_record_failure_absorbed mdlConst store0 demoPayload demoFeats (.finite 72)
    (by decide) (by decide) rfl

/-- Counterexample to C5 as stated: with `sugar` supplied as the
unconvertible string "abc", the invalid-number error carries only Python's
conversion-failure message, which quotes the value "abc" and does not
mention the field name `sugar` anywhere. -/
theorem manual_invalid_number_no_field_name :
    (manual mdlConst true store0 (.json (some payloadBadSugar))).1 =
      .invalidNumber
        "Invalid number format: could not convert string to float: \x27abc\x27" ∧
    pyContains
      "Invalid number format: could not convert string to float: \x27abc\x27"
      "sugar" = false := by
  decide

/-- C5 (amended): when every required field is present but a supplied value
fails float conversion, the handler answers with the invalid-number error
carrying the underlying conversion failure's message — which names the
offending value, not the field — before any scoring is attempted (the
right-hand side is independent of the model) and without applying any of the
other fields (the store is untouched). -/
theorem manual_invalid_number (model : Model) (dbOk : Bool) (store : Store)
    (data : Payload) (e : String)
    (h1 : missing_fields data = []) (h2 : coerceFeatures data = .error e) :
    manual model dbOk store (.json (some data)) =
      (.invalidNumber ("Invalid number format: " ++ e), store) := by
  simp [manual, manualBody, h1, h2]

/-- Witness for C5 (amended) at the "abc" payload. -/
theorem manual_invalid_number_witness :
    manual mdlConst true store0 (.json (some payloadBadSugar)) =
      (.invalidNumber
        ("Invalid number format: " ++
          "could not convert string to float: \x27abc\x27"), store0) :=
  manual_invalid_number mdlConst true store0 payloadBadSugar
    "could not convert string to float: \x27abc\x27" (by decide) (by decide)

/-- C3: the manual-path stages fail fast in the source's exact order.  Each
early-stage result is an explicit right-hand side that mentions none of the
later stages' inputs: a non-JSON request is answered before the body or
fields are looked at; a missing-field report is produced before coercion is
consulted; a coercion failure is reported for any model; a model failure is
reported with the store untouched (no recording); and after a successful
score the response and the single write attempt happen for both outcomes of
the write — recording alone is exempt from fail-fast. -/
theorem manual_fail_fast_order :
    (∀ (model : Model) (dbOk : Bool) (store : Store),
      manual model dbOk store .notJson = (.notJson, store)) ∧
    (∀ (model : Model) (dbOk : Bool) (store : Store),
      manual model dbOk store (.json none) = (.noData, store)) ∧
    (∀ (model : Model) (dbOk : Bool) (store : Store) (data : Payload),
      missing_fields data ≠ [] →
      manual model dbOk store (.json (some data)) =
        (.missingFields (missing_fields data), store)) ∧
    (∀ (model : Model) (dbOk : Bool) (store : Store) (data : Payload) (e : String),
      missing_fields data = [] → coerceFeatures data = .error e →
      manual model dbOk store (.json (some data)) =
        (.invalidNumber ("Invalid number format: " ++ e), store)) ∧
    (∀ (model : Model) (dbOk : Bool) (store : Store) (data : Payload)
        (feats : Features) (e : String),
      missing_fields data = [] → coerceFeatures data = .ok feats →
      model feats.toVec = .error e →
      manual model dbOk store (.json (some data)) =
        (.predictionFailed ("Prediction failed: " ++ e), store)) ∧
    (∀ (model : Model) (dbOk : Bool) (store : Store) (data : Payload)
        (feats : Features) (p : PyFloat),
      missing_fields data = [] → coerceFeatures data = .ok feats →
      model feats.toVec = .ok p →
      (manual model dbOk store (.json (some data))).1 =
        .success p (get_health_feedback p) ∧
      (manual model dbOk store (.json (some data))).2.attempts =
        store.attempts + 1) := by
  refine ⟨?_, ?_, ?_, ?_, ?_, ?_⟩
  · intro model dbOk store
    rfl
  · intro model dbOk store
    rfl
  · intro model dbOk store data h
    simp [manual, manualBody, h]
  · intro model dbOk store data e h1 h2
    simp [manual, manualBody, h1, h2]
  · intro model dbOk store data feats e h1 h2 h3
    simp [manual, manualBody, h1, h2, h3]
  · intro model dbOk store data feats p h1 h2 h3
    cases dbOk <;> simp [manual, manualBody, h1, h2, h3]

/-- Witness for C3: one concrete instance per staged conjunct — a non-JSON
request, a null body, a payload with absent fields, a payload with an
unconvertible value, a raising model, and a successful score recorded once. -/
theorem manual_fail_fast_order_witness :
    manual mdlConst true store0 .notJson = (.notJson, store0) ∧
    manual mdlConst true store0 (.json none) = (.noData, store0) ∧
    manual mdlConst true store0 (.json (some payloadMissingTwo)) =
      (.missingFields (missing_fields payloadMissingTwo), store0) ∧
    manual mdlConst true store0 (.json (some payloadBadSugar)) =
      (.invalidNumber
        ("Invalid number format: " ++
          "could not convert string to float: \x27abc\x27"), store0) ∧
    manual mdlThrow true store0 (.json (some demoPayload)) =
      (.predictionFailed ("Prediction failed: " ++ "boom"), store0) ∧
    (manual mdlConst true store0 (.json (some demoPayload))).1 =
      .success (.finite 72) (get_health_feedback (.finite 72)) ∧
    (manual mdlConst true store0 (.json (some demoPayload))).2.attempts =
      store0.attempts + 1 := by
  refine ⟨manual_fail_fast_order.1 mdlConst true store0,
    manual_fail_fast_order.2.1 mdlConst true store0,
    manual_fail_fast_order.2.2.1 mdlConst true store0 payloadMissingTwo (by decide),
    manual_fail_fast_order.2.2.2.1 mdlConst true store0 payloadBadSugar
      "could not convert string to float: \x27abc\x27" (by decide) (by decide),
    manual_fail_fast_order.2.2.2.2.1 mdlThrow true store0 demoPayload demoFeats
      "boom" (by decide) (by decide) rfl,
    manual_fail_fast_order.2.2.2.2.2 mdlConst true store0 demoPayload demoFeats
      (.finite 72) (by decide) (by decide) rfl⟩

/-- C9: a scan whose barcode matches no catalog entry (after normalization)
yields the user-facing not-found state — an ordinary `.ok` result, not a
propagating failure — with a right-hand side free of the model (no score is
computed) and the store returned untouched (the scan path never writes). -/
theorem scan_not_found (model : Model) (store : Store) (cat : Catalog)
    (b : String) (h : resolveRow (stringifyBarcodes cat) b = none) :
    scan model store cat (some b) = (.ok .notFound, stringifyBarcodes cat, store) := by
  simp [scan, h]

/-- Witness for C9 at spec scenario C: barcode "999-unknown" is absent from
the demo catalog. -/
theorem scan_not_found_witness :
    scan mdlConst store0 demoCat (some "999-unknown") =
      (.ok .notFound, stringifyBarcodes demoCat, store0) ∧
    stringifyBarcodes demoCat = demoCat :=
  ⟨scan_not_found mdlConst store0 demoCat "999-unknown" (by decide), by decide⟩

/-- C6: catalog resolution is exactly first-match lookup under
strip-and-lowercase normalization of both sides: a barcode resolves iff some
row's normalized barcode equals the normalized query; two queries with the
same normal form resolve identically (so "ABC-123", " abc-123 " and
"abc-123" agree on every catalog); and on a cons the head wins whenever it
matches. -/
theorem resolve_barcode_normalized :
    (∀ (cat : Catalog) (b : String),
      (resolveRow cat b).isSome = true ↔
        ∃ r ∈ cat, normBarcode (astypeStr r.barcode) = normBarcode b) ∧
    (∀ (cat : Catalog) (b1 b2 : String),
      normBarcode b1 = normBarcode b2 → resolveRow cat b1 = resolveRow cat b2) ∧
    (∀ cat : Catalog,
      resolveRow cat "ABC-123" = resolveRow cat " abc-123 " ∧
      resolveRow cat "ABC-123" = resolveRow cat "abc-123") ∧
    (∀ (r : CatRow) (cat : Catalog) (b : String),
      resolveRow (r :: cat) b =
        if normBarcode (astypeStr r.barcode) = normBarcode b then some r
        else resolveRow cat b) := by
  have hcons : ∀ (r : CatRow) (cat : Catalog) (b : String),
      resolveRow (r :: cat) b =
        if normBarcode (astypeStr r.barcode) = normBarcode b then some r
        else resolveRow cat b := by
    intro r cat b
    by_cases h : normBarcode (astypeStr r.barcode) = normBarcode b
    · rw [if_pos h]
      exact List.find?_cons_of_pos _ (beq_iff_eq.mpr h)
    · rw [if_neg h]
      exact List.find?_cons_of_neg _ (by simpa using h)
  have hsome : ∀ (cat : Catalog) (b : String),
      (resolveRow cat b).isSome = true ↔
        ∃ r ∈ cat, normBarcode (astypeStr r.barcode) = normBarcode b := by
    intro cat b
    induction cat with
    | nil => simp [resolveRow]
    | cons r cat ih =>
      rw [hcons]
      by_cases h : normBarcode (astypeStr r.barcode) = normBarcode b
      · simp [h]
      · simp [h, ih]
  have hcongr : ∀ (cat : Catalog) (b1 b2 : String),
      normBarcode b1 = normBarcode b2 → resolveRow cat b1 = resolveRow cat b2 := by
    intro cat b1 b2 h
    induction cat with
    | nil => rfl
    | cons r cat ih => rw [hcons, hcons, h, ih]
  refine ⟨hsome, hcongr, ?_, hcons⟩
  intro cat
  exact ⟨hcongr cat "ABC-123" " abc-123 " (by decide),
    hcongr cat "ABC-123" "abc-123" (by decide)⟩

/-- Witness for C6: on the demo catalog the padded and case-varied queries
resolve to the same (existing) entry. -/
theorem resolve_barcode_normalized_witness :
    resolveRow demoCat " abc-123 " = resolveRow demoCat "abc-123" ∧
    resolveRow demoCat "abc-123" = some demoRow :=
  ⟨resolve_barcode_normalized.2.1 demoCat " abc-123 " "abc-123" (by decide),
    by decide⟩

/-- Counterexample to C7 as stated: a scan over a catalog whose barcode
column was loaded as integers returns a catalog different from the one it
started from — line 131 rewrites the barcode column of the shared dataframe
on every scan POST, so the catalog is not read-only. -/
theorem scan_mutates_catalog :
    (scan mdlConst store0 catInt (some "123")).2.1 ≠ catInt := by
  decide

/-- C7 (amended): the barcode-column string coercion performed by the scan
path is the only catalog mutation: every scan rewrites the catalog to
exactly `stringifyBarcodes`, that rewrite is idempotent, and a catalog whose
barcodes are already strings is left unchanged (the manual path takes no
catalog at all). -/
theorem scan_catalog_mutation :
    (∀ (model : Model) (store : Store) (cat : Catalog) (b : Option String),
      (scan model store cat b).2.1 = stringifyBarcodes cat) ∧
    (∀ cat : Catalog,
      stringifyBarcodes (stringifyBarcodes cat) = stringifyBarcodes cat) ∧
    (∀ cat : Catalog, (∀ r ∈ cat, ∃ s, r.barcode = .strB s) →
      stringifyBarcodes cat = cat) := by
  refine ⟨?_, ?_, ?_⟩
  · intro model store cat b
    cases b with
    | none => rfl
    | some s =>
      simp only [scan]
      rcases h : resolveRow (stringifyBarcodes cat) s with _ | row
      · simp [h]
      · rcases hm : model row.featuresVec with e | p <;> simp [h, hm]
  · intro cat
    induction cat with
    | nil => rfl
    | cons r cat ih =>
      simp only [stringifyBarcodes, List.map_cons, List.cons.injEq] at *
      exact ⟨rfl, ih⟩
  · intro cat
    induction cat with
    | nil => intro _; rfl
    | cons r cat ih =>
      intro h
      rcases h r (by simp) with ⟨s, hs⟩
      simp only [stringifyBarcodes, List.map_cons, List.cons.injEq] at *
      refine ⟨?_, ih fun x hx => h x (List.mem_cons_of_mem _ hx)⟩
      cases r
      cases hs
      rfl

/-- Witness for C7 (amended) on the demo catalogs. -/
theorem scan_catalog_mutation_witness :
    (scan mdlConst store0 demoCat (some "999")).2.1 = stringifyBarcodes demoCat ∧
    stringifyBarcodes (stringifyBarcodes catInt) = stringifyBarcodes catInt ∧
    stringifyBarcodes demoCat = demoCat :=
  ⟨scan_catalog_mutation.1 mdlConst store0 demoCat (some "999"),
    scan_catalog_mutation.2.1 catInt,
    scan_catalog_mutation.2.2 demoCat (by
      intro r hr
      simp only [demoCat, List.mem_singleton] at hr
      subst hr
      exact ⟨"abc-123", rfl⟩)⟩

/-- Counterexample to C8 as stated: the scan handler has no `try`/`except`,
so when the scoring capability raises on a matched barcode the exception
propagates out of the handler instead of being converted into a generic
server-failure response. -/
theorem scan_uncaught_exception :
    (scan mdlThrow store0 demoCat (some "abc-123")).1 = .error "boom" := by
  decide

/-- C8 (amended): only the manual path has an outermost orchestrator
boundary: its catch-all converts a body that raised — reachably, a malformed
JSON body — into the generic server-failure response, and more generally any
exception escaping the handler body; the scan path has no such boundary, so
an internal failure of the scoring capability propagates, message and all,
out of the handler. -/
theorem orchestrator_boundary :
    (∀ (model : Model) (dbOk : Bool) (store : Store),
      manual model dbOk store .malformed = (.serverError, store)) ∧
    (∀ (model : Model) (dbOk : Bool) (store : Store) (body : ReqBody) (e : String),
      manualBody model dbOk store body = .error e →
      manual model dbOk store body = (.serverError, store)) ∧
    (∀ (model : Model) (store : Store) (cat : Catalog) (b : String)
        (r : CatRow) (e : String),
      resolveRow (stringifyBarcodes cat) b = some r →
      model r.featuresVec = .error e →
      (scan model store cat (some b)).1 = .error e) := by
  refine ⟨?_, ?_, ?_⟩
  · intro model dbOk store
    rfl
  · intro model dbOk store body e h
    simp [manual, h]
  · intro model store cat b r e h1 h2
    simp [scan, h1, h2]

/-- Witness for C8 (amended): a malformed body is absorbed into the generic
500 on the manual path, while a raising model escapes the scan handler. -/
theorem orchestrator_boundary_witness :
    manual mdlThrow true store0 .malformed = (.serverError, store0) ∧
    (scan mdlThrow store0 demoCat (some "abc-123")).1 = .error "boom" :=
  ⟨orchestrator_boundary.1 mdlThrow true store0,
    orchestrator_boundary.2.2 mdlThrow store0 demoCat "abc-123" demoRow "boom"
      (by decide) rfl⟩

end FoodApp
